import Mathlib

set_option maxHeartbeats 1600000
set_option maxRecDepth 8192

/-!
Shallow embedding of the Zrata-X investment backend (FastAPI/SQLAlchemy
application) and proofs about its behaviour.  Each section embeds one
component of the source tree: the mutual-fund categorization heuristics,
trailing-return computation, the portfolio router's gain/loss and
allocation arithmetic, the FD-rate scraper's persistence and best-rate
query, the cleanup task, the auth router, the recommendation router and
the macro-indicator service.  Monetary values and rates are modelled as
rationals, timestamps as integers (seconds), and Python string operations
(`.lower()`, substring `in`) as functions on lists of code points.
-/

namespace ZrataX

/-- Code points of a string, used to mirror Python string scanning. -/
def codes (s : String) : List Nat := s.data.map Char.toNat

/-- ASCII lower-casing of one code point, as Python's `str.lower` acts on
the ASCII scheme names handled by the service. -/
def lowerN (n : Nat) : Nat := if 65 ≤ n ∧ n ≤ 90 then n + 32 else n

/-- `name.lower()` of the source, on code points. -/
def lc (s : String) : List Nat := (codes s).map lowerN

/-- Python's substring test `pat in l`. -/
def hasSub (pat : List Nat) : List Nat → Bool
  | [] => pat.isPrefixOf []
  | a :: t => pat.isPrefixOf (a :: t) || hasSub pat t

theorem hasSub_iff (pat l : List Nat) : hasSub pat l = true ↔ pat <:+: l := by
  induction l with
  | nil =>
    simp [hasSub]
  | cons a t ih =>
    simp [hasSub, List.infix_cons_iff, ih]

/-- `kw in name_lower` for a lower-case keyword literal `s`. -/
def kwIn (l : List Nat) (s : String) : Bool := hasSub (codes s) l

theorem kwIn_of_occurs {l : List Nat} {s : String} (h : codes s <:+: l) :
    kwIn l s = true := (hasSub_iff _ _).2 h

namespace MF

/-- `MutualFundDataService._categorize_scheme`, translated branch for
branch from the source's if/elif chain. -/
def categorizeScheme (name : String) : String :=
  let l := lc name
  if kwIn l "liquid" then "debt"
  else if kwIn l "overnight" then "debt"
  else if kwIn l "money market" then "debt"
  else if kwIn l "ultra short" then "debt"
  else if kwIn l "low duration" then "debt"
  else if kwIn l "short duration" || kwIn l "short term" then "debt"
  else if kwIn l "medium duration" || kwIn l "medium term" then "debt"
  else if kwIn l "long duration" || kwIn l "long term" then "debt"
  else if kwIn l "gilt" then "debt"
  else if kwIn l "corporate bond" then "debt"
  else if kwIn l "banking" && kwIn l "psu" then "debt"
  else if kwIn l "credit risk" then "debt"
  else if kwIn l "dynamic bond" then "debt"
  else if kwIn l "debt" || kwIn l "bond" || kwIn l "income" then "debt"
  else if kwIn l "floater" then "debt"
  else if kwIn l "hybrid" then "hybrid"
  else if kwIn l "balanced" then "hybrid"
  else if kwIn l "aggressive" && kwIn l "hybrid" then "hybrid"
  else if kwIn l "conservative" && kwIn l "hybrid" then "hybrid"
  else if kwIn l "equity savings" then "hybrid"
  else if kwIn l "arbitrage" then "hybrid"
  else if kwIn l "multi asset" then "hybrid"
  else if kwIn l "gold" then "gold"
  else if kwIn l "silver" then "silver"
  else if kwIn l "retirement" then "solution"
  else if kwIn l "children" || kwIn l "child" then "solution"
  else if kwIn l "elss" || (kwIn l "tax" && kwIn l "saver") then "equity_elss"
  else if kwIn l "index" || kwIn l "nifty" || kwIn l "sensex" then "equity_index"
  else if kwIn l "etf" then "etf"
  else if ["large cap", "largecap", "large-cap",
      "mid cap", "midcap", "mid-cap",
      "small cap", "smallcap", "small-cap",
      "multi cap", "multicap", "multi-cap",
      "flexi cap", "flexicap", "flexi-cap",
      "focused", "value", "contra", "dividend yield",
      "equity", "growth", "opportunities"].any (fun s => kwIn l s) then "equity"
  else if kwIn l "sectoral" || kwIn l "sector" then "equity_sectoral"
  else if kwIn l "thematic" then "equity_thematic"
  else if kwIn l "fund of fund" || kwIn l "fof" then "fof"
  else "other"

/-- `MutualFundDataService._determine_sub_category`, translated from the
source. -/
def determineSubCategory (name : String) : Option String :=
  let l := lc name
  if kwIn l "large cap" || kwIn l "largecap" then some "large_cap"
  else if kwIn l "mid cap" || kwIn l "midcap" then some "mid_cap"
  else if kwIn l "small cap" || kwIn l "smallcap" then some "small_cap"
  else if kwIn l "large & mid" || kwIn l "large and mid" then some "large_mid_cap"
  else if kwIn l "multi cap" || kwIn l "multicap" then some "multi_cap"
  else if kwIn l "flexi cap" || kwIn l "flexicap" then some "flexi_cap"
  else if kwIn l "focused" then some "focused"
  else if kwIn l "value" then some "value"
  else if kwIn l "contra" then some "contra"
  else if kwIn l "dividend yield" then some "dividend_yield"
  else none

/-- A keyword occurring in the raw name occurs lower-cased in the
lower-cased name. -/
theorem lc_occurs_of_codes_occurs {name : String} {pat : String}
    (h : codes pat <:+: codes name) :
    (codes pat).map lowerN <:+: lc name := by
  unfold lc
  exact List.IsInfix.map lowerN h

theorem kwIn_of_hasSub {name pat low : String}
    (h : hasSub (codes pat) (codes name) = true)
    (hle : codes low <:+: (codes pat).map lowerN) :
    kwIn (lc name) low = true :=
  kwIn_of_occurs (hle.trans (lc_occurs_of_codes_occurs ((hasSub_iff _ _).1 h)))

/-- C2 counterexample: the claim quantifies over every scheme name, but the
categorization is a first-match priority chain, so a name containing
"Large Cap" that also contains a higher-priority keyword ("Index") is not
categorized "equity", and a name containing "Gold" alongside a debt
keyword ("Bond") is not categorized "gold". -/
theorem categorize_scheme_counterexample :
    hasSub (codes "Large Cap") (codes "Nifty Large Cap Index Fund") = true
    ∧ categorizeScheme "Nifty Large Cap Index Fund" = "equity_index"
    ∧ "equity_index" ≠ "equity"
    ∧ hasSub (codes "Gold") (codes "SBI Gold Bond Fund") = true
    ∧ categorizeScheme "SBI Gold Bond Fund" = "debt"
    ∧ "debt" ≠ "gold" := by
  refine ⟨by decide, by decide, by decide, by decide, by decide, by decide⟩

/-- C2 (amended): every scheme name containing "Liquid Fund" is categorized
debt; every name containing "Large Cap" gets sub-category large_cap; a name
containing "Large Cap" is categorized equity provided no higher-priority
keyword of the chain occurs in it, and a name containing "Gold" is
categorized gold provided no debt or hybrid keyword occurs in it. -/
theorem categorize_scheme_amended (name : String) :
    (hasSub (codes "Liquid Fund") (codes name) = true →
      categorizeScheme name = "debt")
    ∧ (hasSub (codes "Large Cap") (codes name) = true →
      determineSubCategory name = some "large_cap")
    ∧ (hasSub (codes "Large Cap") (codes name) = true →
      (kwIn (lc name) "liquid" = false ∧ kwIn (lc name) "overnight" = false
        ∧ kwIn (lc name) "money market" = false ∧ kwIn (lc name) "ultra short" = false
        ∧ kwIn (lc name) "low duration" = false ∧ kwIn (lc name) "short duration" = false
        ∧ kwIn (lc name) "short term" = false ∧ kwIn (lc name) "medium duration" = false
        ∧ kwIn (lc name) "medium term" = false ∧ kwIn (lc name) "long duration" = false
        ∧ kwIn (lc name) "long term" = false ∧ kwIn (lc name) "gilt" = false
        ∧ kwIn (lc name) "corporate bond" = false
        ∧ (kwIn (lc name) "banking" && kwIn (lc name) "psu") = false
        ∧ kwIn (lc name) "credit risk" = false ∧ kwIn (lc name) "dynamic bond" = false
        ∧ kwIn (lc name) "debt" = false ∧ kwIn (lc name) "bond" = false
        ∧ kwIn (lc name) "income" = false ∧ kwIn (lc name) "floater" = false
        ∧ kwIn (lc name) "hybrid" = false ∧ kwIn (lc name) "balanced" = false
        ∧ kwIn (lc name) "equity savings" = false ∧ kwIn (lc name) "arbitrage" = false
        ∧ kwIn (lc name) "multi asset" = false ∧ kwIn (lc name) "gold" = false
        ∧ kwIn (lc name) "silver" = false ∧ kwIn (lc name) "retirement" = false
        ∧ kwIn (lc name) "children" = false ∧ kwIn (lc name) "child" = false
        ∧ kwIn (lc name) "elss" = false
        ∧ (kwIn (lc name) "tax" && kwIn (lc name) "saver") = false
        ∧ kwIn (lc name) "index" = false ∧ kwIn (lc name) "nifty" = false
        ∧ kwIn (lc name) "sensex" = false ∧ kwIn (lc name) "etf" = false) →
      categorizeScheme name = "equity")
    ∧ (hasSub (codes "Gold") (codes name) = true →
      (kwIn (lc name) "liquid" = false ∧ kwIn (lc name) "overnight" = false
        ∧ kwIn (lc name) "money market" = false ∧ kwIn (lc name) "ultra short" = false
        ∧ kwIn (lc name) "low duration" = false ∧ kwIn (lc name) "short duration" = false
        ∧ kwIn (lc name) "short term" = false ∧ kwIn (lc name) "medium duration" = false
        ∧ kwIn (lc name) "medium term" = false ∧ kwIn (lc name) "long duration" = false
        ∧ kwIn (lc name) "long term" = false ∧ kwIn (lc name) "gilt" = false
        ∧ kwIn (lc name) "corporate bond" = false
        ∧ (kwIn (lc name) "banking" && kwIn (lc name) "psu") = false
        ∧ kwIn (lc name) "credit risk" = false ∧ kwIn (lc name) "dynamic bond" = false
        ∧ kwIn (lc name) "debt" = false ∧ kwIn (lc name) "bond" = false
        ∧ kwIn (lc name) "income" = false ∧ kwIn (lc name) "floater" = false
        ∧ kwIn (lc name) "hybrid" = false ∧ kwIn (lc name) "balanced" = false
        ∧ kwIn (lc name) "equity savings" = false ∧ kwIn (lc name) "arbitrage" = false
        ∧ kwIn (lc name) "multi asset" = false) →
      categorizeScheme name = "gold") := by
  refine ⟨?_, ?_, ?_, ?_⟩
  · intro h
    have hliq : kwIn (lc name) "liquid" = true := kwIn_of_hasSub h (by decide)
    simp [categorizeScheme, hliq]
  · intro h
    have hcap : kwIn (lc name) "large cap" = true := kwIn_of_hasSub h (by decide)
    simp [determineSubCategory, hcap]
  · intro h hk
    have hcap : kwIn (lc name) "large cap" = true := kwIn_of_hasSub h (by decide)
    obtain ⟨k1, k2, k3, k4, k5, k6, k7, k8, k9, k10, k11, k12, k13, k14, k15, k16,
      k17, k18, k19, k20, k21, k22, k23, k24, k25, k26, k27, k28, k29, k30, k31,
      k32, k33, k34, k35, k36⟩ := hk
    simp [categorizeScheme, hcap, k1, k2, k3, k4, k5, k6, k7, k8, k9, k10, k11, k12,
      k13, k14, k15, k16, k17, k18, k19, k20, k21, k22, k23, k24, k25, k26, k27,
      k28, k29, k30, k31, k32, k33, k34, k35, k36]
  · intro h hk
    have hgold : kwIn (lc name) "gold" = true := kwIn_of_hasSub h (by decide)
    obtain ⟨k1, k2, k3, k4, k5, k6, k7, k8, k9, k10, k11, k12, k13, k14, k15, k16,
      k17, k18, k19, k20, k21, k22, k23, k24, k25⟩ := hk
    simp [categorizeScheme, hgold, k1, k2, k3, k4, k5, k6, k7, k8, k9, k10, k11, k12,
      k13, k14, k15, k16, k17, k18, k19, k20, k21, k22, k23, k24, k25]

/-- C2 witness: the amended theorem applied at concrete scheme names. -/
theorem categorize_scheme_amended_witness :
    categorizeScheme "HDFC Liquid Fund - Direct Plan" = "debt"
    ∧ determineSubCategory "Axis Large Cap Fund" = some "large_cap"
    ∧ categorizeScheme "HDFC Large Cap Fund" = "equity"
    ∧ categorizeScheme "SBI Gold Fund" = "gold" :=
  ⟨(categorize_scheme_amended "HDFC Liquid Fund - Direct Plan").1 (by decide),
   (categorize_scheme_amended "Axis Large Cap Fund").2.1 (by decide),
   (categorize_scheme_amended "HDFC Large Cap Fund").2.2.1 (by decide)
     (by refine ⟨?_, ?_, ?_, ?_, ?_, ?_, ?_, ?_, ?_, ?_, ?_, ?_, ?_, ?_, ?_, ?_,
          ?_, ?_, ?_, ?_, ?_, ?_, ?_, ?_, ?_, ?_, ?_, ?_, ?_, ?_, ?_, ?_, ?_, ?_,
          ?_, ?_⟩ <;> decide),
   (categorize_scheme_amended "SBI Gold Fund").2.2.2 (by decide)
     (by refine ⟨?_, ?_, ?_, ?_, ?_, ?_, ?_, ?_, ?_, ?_, ?_, ?_, ?_, ?_, ?_, ?_,
          ?_, ?_, ?_, ?_, ?_, ?_, ?_, ?_, ?_⟩ <;> decide)⟩

end MF

namespace Returns

/-- The six trailing-return figures computed by
`MutualFundDataService._calculate_returns`; a horizon the history cannot
reach, or whose old NAV is not positive, stays unset.  The two multi-year
figures are real numbers because the source computes them with a
fractional power. -/
structure FundReturns where
  r1m : Option ℚ
  r3m : Option ℚ
  r6m : Option ℚ
  r1y : Option ℚ
  r3y : Option ℝ
  r5y : Option ℝ

/-- One simple-percentage horizon of `_calculate_returns`: the guard
`len(nav_history) > days`, the old NAV at index `days`, the positivity
guard, and `((current - old) / old) * 100`. -/
def simpleReturnAt (hist : List ℚ) (days : Nat) : Option ℚ :=
  if days < hist.length then
    if 0 < hist.getD days 0 then
      some ((hist.headD 0 - hist.getD days 0) / hist.getD days 0 * 100)
    else none
  else none

/-- One CAGR horizon of `_calculate_returns`:
`((current / old) ** (1 / (days / 365)) - 1) * 100`. -/
noncomputable def cagrReturnAt (hist : List ℚ) (days : Nat) : Option ℝ :=
  if days < hist.length then
    if 0 < hist.getD days 0 then
      some (((((hist.headD 0 : ℚ) : ℝ) / ((hist.getD days 0 : ℚ) : ℝ))
        ^ ((365 : ℝ) / (days : ℝ)) - 1) * 100)
    else none
  else none

/-- `MutualFundDataService._calculate_returns`: empty or one-point
histories produce no figures; otherwise simple returns at 30/90/180/365
index positions and CAGR at 1095/1825. -/
noncomputable def calculateReturns (hist : List ℚ) : FundReturns :=
  if hist.length < 2 then ⟨none, none, none, none, none, none⟩
  else
    { r1m := simpleReturnAt hist 30
      r3m := simpleReturnAt hist 90
      r6m := simpleReturnAt hist 180
      r1y := simpleReturnAt hist 365
      r3y := cagrReturnAt hist 1095
      r5y := cagrReturnAt hist 1825 }

theorem calculateReturns_of_two_le (hist : List ℚ) (h : 2 ≤ hist.length) :
    calculateReturns hist =
      ⟨simpleReturnAt hist 30, simpleReturnAt hist 90, simpleReturnAt hist 180,
       simpleReturnAt hist 365, cagrReturnAt hist 1095, cagrReturnAt hist 1825⟩ := by
  unfold calculateReturns
  rw [if_neg (by omega)]

theorem simpleReturnAt_of_lt (hist : List ℚ) (d : Nat) (hd : d < hist.length)
    (hpos : 0 < hist.getD d 0) :
    simpleReturnAt hist d =
      some ((hist.headD 0 - hist.getD d 0) / hist.getD d 0 * 100) := by
  unfold simpleReturnAt
  rw [if_pos hd, if_pos hpos]

theorem simpleReturnAt_of_ge (hist : List ℚ) (d : Nat) (hd : hist.length ≤ d) :
    simpleReturnAt hist d = none := by
  unfold simpleReturnAt
  rw [if_neg (by omega)]

theorem cagrReturnAt_of_lt (hist : List ℚ) (d : Nat) (hd : d < hist.length)
    (hpos : 0 < hist.getD d 0) :
    cagrReturnAt hist d =
      some (((((hist.headD 0 : ℚ) : ℝ) / ((hist.getD d 0 : ℚ) : ℝ))
        ^ ((365 : ℝ) / (d : ℝ)) - 1) * 100) := by
  unfold cagrReturnAt
  rw [if_pos hd, if_pos hpos]

theorem cagrReturnAt_of_ge (hist : List ℚ) (d : Nat) (hd : hist.length ≤ d) :
    cagrReturnAt hist d = none := by
  unfold cagrReturnAt
  rw [if_neg (by omega)]

/-- C4: for a daily newest-first NAV history, each of the 30/90/180/365
horizons with positive old NAV yields the simple percentage return, each
of the 1095/1825 horizons yields the CAGR `((current/old)^(365/days) - 1) * 100`,
and every horizon the history cannot reach is left unset. -/
theorem calculate_returns_spec (hist : List ℚ) :
    ((30 < hist.length → 0 < hist.getD 30 0 →
        (calculateReturns hist).r1m =
          some ((hist.headD 0 - hist.getD 30 0) / hist.getD 30 0 * 100))
      ∧ (90 < hist.length → 0 < hist.getD 90 0 →
        (calculateReturns hist).r3m =
          some ((hist.headD 0 - hist.getD 90 0) / hist.getD 90 0 * 100))
      ∧ (180 < hist.length → 0 < hist.getD 180 0 →
        (calculateReturns hist).r6m =
          some ((hist.headD 0 - hist.getD 180 0) / hist.getD 180 0 * 100))
      ∧ (365 < hist.length → 0 < hist.getD 365 0 →
        (calculateReturns hist).r1y =
          some ((hist.headD 0 - hist.getD 365 0) / hist.getD 365 0 * 100)))
    ∧ ((1095 < hist.length → 0 < hist.getD 1095 0 →
        (calculateReturns hist).r3y =
          some (((((hist.headD 0 : ℚ) : ℝ) / ((hist.getD 1095 0 : ℚ) : ℝ))
            ^ ((365 : ℝ) / (1095 : ℝ)) - 1) * 100))
      ∧ (1825 < hist.length → 0 < hist.getD 1825 0 →
        (calculateReturns hist).r5y =
          some (((((hist.headD 0 : ℚ) : ℝ) / ((hist.getD 1825 0 : ℚ) : ℝ))
            ^ ((365 : ℝ) / (1825 : ℝ)) - 1) * 100)))
    ∧ ((hist.length ≤ 30 → (calculateReturns hist).r1m = none)
      ∧ (hist.length ≤ 90 → (calculateReturns hist).r3m = none)
      ∧ (hist.length ≤ 180 → (calculateReturns hist).r6m = none)
      ∧ (hist.length ≤ 365 → (calculateReturns hist).r1y = none)
      ∧ (hist.length ≤ 1095 → (calculateReturns hist).r3y = none)
      ∧ (hist.length ≤ 1825 → (calculateReturns hist).r5y = none)) := by
  refine ⟨⟨?_, ?_, ?_, ?_⟩, ⟨?_, ?_⟩, ?_, ?_, ?_, ?_, ?_, ?_⟩
  · intro hd hpos
    rw [calculateReturns_of_two_le hist (by omega)]
    exact simpleReturnAt_of_lt hist 30 hd hpos
  · intro hd hpos
    rw [calculateReturns_of_two_le hist (by omega)]
    exact simpleReturnAt_of_lt hist 90 hd hpos
  · intro hd hpos
    rw [calculateReturns_of_two_le hist (by omega)]
    exact simpleReturnAt_of_lt hist 180 hd hpos
  · intro hd hpos
    rw [calculateReturns_of_two_le hist (by omega)]
    exact simpleReturnAt_of_lt hist 365 hd hpos
  · intro hd hpos
    rw [calculateReturns_of_two_le hist (by omega)]
    have := cagrReturnAt_of_lt hist 1095 hd hpos
    simpa using this
  · intro hd hpos
    rw [calculateReturns_of_two_le hist (by omega)]
    have := cagrReturnAt_of_lt hist 1825 hd hpos
    simpa using this
  · intro hle
    by_cases h2 : hist.length < 2
    · unfold calculateReturns
      rw [if_pos h2]
    · rw [calculateReturns_of_two_le hist (by omega)]
      exact simpleReturnAt_of_ge hist 30 hle
  · intro hle
    by_cases h2 : hist.length < 2
    · unfold calculateReturns
      rw [if_pos h2]
    · rw [calculateReturns_of_two_le hist (by omega)]
      exact simpleReturnAt_of_ge hist 90 hle
  · intro hle
    by_cases h2 : hist.length < 2
    · unfold calculateReturns
      rw [if_pos h2]
    · rw [calculateReturns_of_two_le hist (by omega)]
      exact simpleReturnAt_of_ge hist 180 hle
  · intro hle
    by_cases h2 : hist.length < 2
    · unfold calculateReturns
      rw [if_pos h2]
    · rw [calculateReturns_of_two_le hist (by omega)]
      exact simpleReturnAt_of_ge hist 365 hle
  · intro hle
    by_cases h2 : hist.length < 2
    · unfold calculateReturns
      rw [if_pos h2]
    · rw [calculateReturns_of_two_le hist (by omega)]
      exact cagrReturnAt_of_ge hist 1095 hle
  · intro hle
    by_cases h2 : hist.length < 2
    · unfold calculateReturns
      rw [if_pos h2]
    · rw [calculateReturns_of_two_le hist (by omega)]
      exact cagrReturnAt_of_ge hist 1825 hle

/-- Synthetic NAV history for the witness: NAV 8 today, NAV 1 on every
earlier of 1095 prior days (length 1096). -/
def witnessHist : List ℚ := 8 :: List.replicate 1095 1

theorem witnessHist_length : witnessHist.length = 1096 := by
  rw [witnessHist, List.length_cons, List.length_replicate]

theorem witnessHist_getD_30 : witnessHist.getD 30 0 = 1 := by decide

theorem witnessHist_getD_1095 : witnessHist.getD 1095 0 = 1 := by decide

/-- C4 witness: the trailing-return theorem evaluated on the synthetic
history: 1-month simple return 700%, 3-year CAGR (8^(1/3) - 1) * 100 = 100%,
and the 5-year figure unset because only 1096 points exist. -/
theorem calculate_returns_spec_witness :
    (calculateReturns witnessHist).r1m = some 700
    ∧ (calculateReturns witnessHist).r3y = some 100
    ∧ (calculateReturns witnessHist).r5y = none := by
  obtain ⟨⟨h1m, -, -, -⟩, ⟨h3y, -⟩, -, -, -, -, -, h5y⟩ := calculate_returns_spec witnessHist
  refine ⟨?_, ?_, ?_⟩
  · rw [h1m (by rw [witnessHist_length]; omega) (by rw [witnessHist_getD_30]; norm_num)]
    rw [witnessHist_getD_30, show witnessHist.headD 0 = 8 from rfl]
    norm_num
  · rw [h3y (by rw [witnessHist_length]; omega) (by rw [witnessHist_getD_1095]; norm_num)]
    rw [witnessHist_getD_1095, show witnessHist.headD 0 = 8 from rfl]
    have hbase : (((8 : ℚ) : ℝ) / ((1 : ℚ) : ℝ)) = (2 : ℝ) ^ (3 : ℝ) := by
      rw [show ((3 : ℝ)) = ((3 : ℕ) : ℝ) by norm_num, Real.rpow_natCast]
      norm_num
    have hexp : (365 : ℝ) / (1095 : ℝ) = (3 : ℝ)⁻¹ := by norm_num
    rw [hbase, hexp, ← Real.rpow_mul (by norm_num : (0 : ℝ) ≤ 2)]
    rw [mul_inv_cancel₀ (by norm_num : (3 : ℝ) ≠ 0), Real.rpow_one]
    norm_num
  · exact h5y (by rw [witnessHist_length]; omega)

end Returns

namespace Portfolio

/-- A `PortfolioHolding` row as the portfolio router reads it. -/
structure HoldingRow where
  assetType : String
  assetId : String
  units : Option ℚ
  investedAmount : ℚ
  currentValue : ℚ
deriving DecidableEq

/-- One entry of the `/portfolio/holdings` response. -/
structure HoldingResp where
  assetType : String
  investedAmount : ℚ
  currentValue : ℚ
  gainLoss : ℚ
  gainLossPercent : ℚ
deriving DecidableEq

/-- The live revaluation inside `get_holdings`: mutual-fund holdings with a
matching scheme row and truthy units are repriced at `units * nav`; every
other holding keeps its stored current value. -/
def liveCurrentValue (mfNav : String → Option ℚ) (h : HoldingRow) : ℚ :=
  if h.assetType = "mutual_fund" then
    match mfNav h.assetId, h.units with
    | some nav, some u => if u = 0 then h.currentValue else u * nav
    | _, _ => h.currentValue
  else h.currentValue

/-- One response row of `get_holdings`: gain/loss and the division-guarded
percentage. -/
def toResp (mfNav : String → Option ℚ) (h : HoldingRow) : HoldingResp :=
  { assetType := h.assetType
    investedAmount := h.investedAmount
    currentValue := liveCurrentValue mfNav h
    gainLoss := liveCurrentValue mfNav h - h.investedAmount
    gainLossPercent :=
      if 0 < h.investedAmount then
        (liveCurrentValue mfNav h - h.investedAmount) / h.investedAmount * 100
      else 0 }

/-- `get_holdings` over the user's stored rows. -/
def getHoldings (mfNav : String → Option ℚ) (rows : List HoldingRow) :
    List HoldingResp :=
  rows.map (toResp mfNav)

def totalInvested (rs : List HoldingResp) : ℚ := (rs.map (·.investedAmount)).sum

def totalCurrent (rs : List HoldingResp) : ℚ := (rs.map (·.currentValue)).sum

/-- Keys of a Python dict in insertion order: first occurrences kept,
later duplicates (already in `seen`) skipped. -/
def firstDedupAux {α : Type} [DecidableEq α] (seen : List α) : List α → List α
  | [] => []
  | a :: l =>
    if a ∈ seen then firstDedupAux seen l
    else a :: firstDedupAux (a :: seen) l

def firstDedup {α : Type} [DecidableEq α] (l : List α) : List α :=
  firstDedupAux [] l

theorem mem_firstDedupAux {α : Type} [DecidableEq α] (x : α) :
    ∀ (l seen : List α), x ∈ firstDedupAux seen l ↔ x ∈ l ∧ x ∉ seen := by
  intro l
  induction l with
  | nil => simp [firstDedupAux]
  | cons a l ih =>
    intro seen
    rw [firstDedupAux]
    by_cases ha : a ∈ seen
    · rw [if_pos ha, ih seen]
      constructor
      · exact fun ⟨h1, h2⟩ => ⟨List.mem_cons_of_mem a h1, h2⟩
      · rintro ⟨h1, h2⟩
        rcases List.mem_cons.1 h1 with h | h
        · exact absurd (h ▸ ha) h2
        · exact ⟨h, h2⟩
    · rw [if_neg ha]
      simp only [List.mem_cons, ih (a :: seen), List.mem_cons]
      constructor
      · rintro (h | ⟨h1, h2⟩)
        · exact ⟨Or.inl h, h ▸ ha⟩
        · exact ⟨Or.inr h1, fun hx => h2 (Or.inr hx)⟩
      · rintro ⟨h1, h2⟩
        by_cases hx : x = a
        · exact Or.inl hx
        · exact Or.inr ⟨h1.resolve_left hx, fun hs => h2 (hs.resolve_left hx)⟩

theorem mem_firstDedup {α : Type} [DecidableEq α] (x : α) (l : List α) :
    x ∈ firstDedup l ↔ x ∈ l := by
  rw [firstDedup, mem_firstDedupAux]
  simp

theorem nodup_firstDedupAux {α : Type} [DecidableEq α] :
    ∀ (l seen : List α), (firstDedupAux seen l).Nodup := by
  intro l
  induction l with
  | nil => intro seen; simp [firstDedupAux]
  | cons a l ih =>
    intro seen
    rw [firstDedupAux]
    by_cases ha : a ∈ seen
    · rw [if_pos ha]
      exact ih seen
    · rw [if_neg ha, List.nodup_cons]
      refine ⟨?_, ih (a :: seen)⟩
      intro hmem
      exact ((mem_firstDedupAux a l (a :: seen)).1 hmem).2 (List.mem_cons_self a seen)

theorem nodup_firstDedup {α : Type} [DecidableEq α] (l : List α) :
    (firstDedup l).Nodup :=
  nodup_firstDedupAux l []

/-- The distinct asset types, in the order the summary's allocation dict
collects them. -/
def assetTypes (rs : List HoldingResp) : List String :=
  firstDedup (rs.map (·.assetType))

/-- The `allocation[t]["current"]` bucket of `get_portfolio_summary`. -/
def bucketCurrent (rs : List HoldingResp) (t : String) : ℚ :=
  ((rs.filter (fun r => r.assetType = t)).map (·.currentValue)).sum

/-- The `allocation[t]["percent"]` figure of `get_portfolio_summary`. -/
def allocationPercent (rs : List HoldingResp) (t : String) : ℚ :=
  if 0 < totalCurrent rs then bucketCurrent rs t / totalCurrent rs * 100 else 0

theorem sum_map_add_pointwise {γ : Type} (f g : γ → ℚ) (l : List γ) :
    (l.map fun x => f x + g x).sum = (l.map f).sum + (l.map g).sum := by
  induction l with
  | nil => simp
  | cons a l ih => simp [ih]; ring

theorem sum_ite_eq_zero_of_not_mem {κ : Type} [DecidableEq κ] (c : κ) (v : ℚ) :
    ∀ ks : List κ, c ∉ ks → (ks.map fun t => if c = t then v else 0).sum = 0 := by
  intro ks
  induction ks with
  | nil => simp
  | cons t ks ih =>
    intro hc
    have h1 : c ≠ t := fun h => hc (h ▸ List.mem_cons_self t ks)
    have h2 : c ∉ ks := fun h => hc (List.mem_cons_of_mem t h)
    simp [h1, ih h2]

theorem sum_ite_eq_of_mem {κ : Type} [DecidableEq κ] (c : κ) (v : ℚ) :
    ∀ ks : List κ, ks.Nodup → c ∈ ks →
      (ks.map fun t => if c = t then v else 0).sum = v := by
  intro ks
  induction ks with
  | nil => simp
  | cons t ks ih =>
    intro hnd hc
    rw [List.nodup_cons] at hnd
    by_cases h : c = t
    · subst h
      simp [sum_ite_eq_zero_of_not_mem c v ks hnd.1]
    · have : c ∈ ks := (List.mem_cons.1 hc).resolve_left h
      simp [h, ih hnd.2 this]

/-- Summing fiber-wise over a duplicate-free key list that covers every
element recovers the total sum. -/
theorem grouped_sum {γ κ : Type} [DecidableEq κ] (key : γ → κ) (f : γ → ℚ)
    (ks : List κ) (hnd : ks.Nodup) :
    ∀ l : List γ, (∀ x ∈ l, key x ∈ ks) →
      (ks.map fun t => ((l.filter (fun x => key x = t)).map f).sum).sum
        = (l.map f).sum := by
  intro l
  induction l with
  | nil => simp
  | cons a l ih =>
    intro hcov
    have hbucket : ∀ t : κ,
        (((a :: l).filter (fun x => key x = t)).map f).sum
          = (if key a = t then f a else 0)
            + ((l.filter (fun x => key x = t)).map f).sum := by
      intro t
      by_cases h : key a = t
      · rw [List.filter_cons_of_pos (by simpa using h)]
        simp [h]
      · rw [List.filter_cons_of_neg (by simpa using h)]
        simp [h]
    have step1 :
        (ks.map fun t => (((a :: l).filter (fun x => key x = t)).map f).sum).sum
          = (ks.map fun t => (if key a = t then f a else 0)
              + ((l.filter (fun x => key x = t)).map f).sum).sum := by
      congr 1
      exact List.map_congr_left (fun t _ => hbucket t)
    rw [step1, sum_map_add_pointwise]
    rw [sum_ite_eq_of_mem (key a) (f a) ks hnd (hcov a (List.mem_cons_self a l))]
    rw [ih (fun x hx => hcov x (List.mem_cons_of_mem a hx))]
    simp

/-- C6: the portfolio-summary allocation percentages over the distinct
asset types sum to exactly 100 whenever the total current value is
positive, and are all 0 when the total current value is 0. -/
theorem allocation_percent_spec (mfNav : String → Option ℚ) (rows : List HoldingRow) :
    (getHoldings mfNav rows ≠ [] →
      0 < totalCurrent (getHoldings mfNav rows) →
      ((assetTypes (getHoldings mfNav rows)).map
          (allocationPercent (getHoldings mfNav rows))).sum = 100)
    ∧ (totalCurrent (getHoldings mfNav rows) = 0 →
      ∀ t, allocationPercent (getHoldings mfNav rows) t = 0) := by
  constructor
  · intro _ hpos
    have hC : totalCurrent (getHoldings mfNav rows) ≠ 0 := ne_of_gt hpos
    have hcov : ∀ r ∈ getHoldings mfNav rows,
        r.assetType ∈ assetTypes (getHoldings mfNav rows) := by
      intro r hr
      rw [assetTypes, mem_firstDedup]
      exact List.mem_map_of_mem _ hr
    have hsum := grouped_sum (fun r : HoldingResp => r.assetType)
      (fun r : HoldingResp => r.currentValue)
      (assetTypes (getHoldings mfNav rows))
      (nodup_firstDedup _) (getHoldings mfNav rows) hcov
    have hbuckets : ((assetTypes (getHoldings mfNav rows)).map
        (bucketCurrent (getHoldings mfNav rows))).sum
          = totalCurrent (getHoldings mfNav rows) := by
      simpa [bucketCurrent, totalCurrent] using hsum
    have hrw : ((assetTypes (getHoldings mfNav rows)).map
          (allocationPercent (getHoldings mfNav rows))).sum
        = ((assetTypes (getHoldings mfNav rows)).map
            (fun t => bucketCurrent (getHoldings mfNav rows) t
              * (100 / totalCurrent (getHoldings mfNav rows)))).sum := by
      congr 1
      refine List.map_congr_left (fun t _ => ?_)
      rw [allocationPercent, if_pos hpos]
      ring
    rw [hrw, List.sum_map_mul_right, hbuckets]
    field_simp
  · intro h0 t
    rw [allocationPercent, if_neg (by rw [h0]; exact lt_irrefl 0)]

/-- C6 witness: two holdings of different asset types, values 60 and 40 of
a 100 total, whose percentages sum to 100. -/
theorem allocation_percent_spec_witness :
    ((assetTypes (getHoldings (fun _ => none)
        [⟨"fd", "HDFC Bank", none, 50, 60⟩, ⟨"gold", "SGB", none, 50, 40⟩])).map
      (allocationPercent (getHoldings (fun _ => none)
        [⟨"fd", "HDFC Bank", none, 50, 60⟩, ⟨"gold", "SGB", none, 50, 40⟩]))).sum
      = 100 :=
  (allocation_percent_spec (fun _ => none)
    [⟨"fd", "HDFC Bank", none, 50, 60⟩, ⟨"gold", "SGB", none, 50, 40⟩]).1
    (by simp [getHoldings])
    (by norm_num [totalCurrent, getHoldings, toResp, liveCurrentValue])

/-- C7: every holdings-response row carries gain/loss equal to current
value minus invested amount; the percentage is `gain/invested*100` for
positive invested amounts and 0 when the invested amount is 0, so the
division is never taken on a zero denominator. -/
theorem gain_loss_spec (mfNav : String → Option ℚ) (h : HoldingRow) :
    (toResp mfNav h).gainLoss = (toResp mfNav h).currentValue - h.investedAmount
    ∧ (0 < h.investedAmount →
      (toResp mfNav h).gainLossPercent =
        (toResp mfNav h).gainLoss / h.investedAmount * 100)
    ∧ (h.investedAmount = 0 → (toResp mfNav h).gainLossPercent = 0) := by
  refine ⟨rfl, ?_, ?_⟩
  · intro hpos
    simp [toResp, if_pos hpos]
  · intro h0
    simp [toResp, h0]

/-- C7 witness: invested 10000 and current 12000 give gain 2000 and 20%,
and a zero invested amount gives 0%. -/
theorem gain_loss_spec_witness :
    (toResp (fun _ => none) ⟨"fd", "HDFC Bank", none, 10000, 12000⟩).gainLoss = 2000
    ∧ (toResp (fun _ => none) ⟨"fd", "HDFC Bank", none, 10000, 12000⟩).gainLossPercent = 20
    ∧ (toResp (fun _ => none) ⟨"fd", "HDFC Bank", none, 0, 0⟩).gainLossPercent = 0 := by
  have h1 := gain_loss_spec (fun _ => none) ⟨"fd", "HDFC Bank", none, 10000, 12000⟩
  have h2 := gain_loss_spec (fun _ => none) ⟨"fd", "HDFC Bank", none, 0, 0⟩
  refine ⟨?_, ?_, h2.2.2 rfl⟩
  · rw [h1.1]
    norm_num [toResp, liveCurrentValue]
  · rw [h1.2.1 (by norm_num : (0 : ℚ) < 10000), h1.1]
    norm_num [toResp, liveCurrentValue]

end Portfolio

namespace FD

/-- One extracted rate tier as the scraper hands it to `_store_fd_rates`:
every field is optional because the dict's `.get` supplies a default. -/
structure RateData where
  bankName : Option String
  bankType : Option String
  tenureMinDays : Option Nat
  tenureMaxDays : Option Nat
  tenureDisplay : Option String
  rateGeneral : Option ℚ
  rateSenior : Option ℚ
  minAmount : Option ℚ
  specialFeatures : Option String
  sourceUrl : Option String
deriving DecidableEq

/-- A stored `FixedDepositRate` row. -/
structure FDRow where
  bankName : String
  bankType : String
  tenureMin : Nat
  tenureMax : Nat
  tenureDisplay : String
  rateGeneral : ℚ
  rateSenior : Option ℚ
  minAmount : Option ℚ
  specialFeatures : Option String
  sourceUrl : String
  hasCreditCardOffer : Bool
deriving DecidableEq

/-- The row `_store_fd_rates` builds for one tier, defaults included; the
credit-card flag tests whether "credit card" occurs (lower-cased) in the
special-features text. -/
def toFDRow (r : RateData) : FDRow :=
  { bankName := r.bankName.getD "Unknown"
    bankType := r.bankType.getD "unknown"
    tenureMin := r.tenureMinDays.getD 0
    tenureMax := r.tenureMaxDays.getD 0
    tenureDisplay := r.tenureDisplay.getD ""
    rateGeneral := r.rateGeneral.getD 0
    rateSenior := r.rateSenior
    minAmount := r.minAmount
    specialFeatures := r.specialFeatures
    sourceUrl := r.sourceUrl.getD ""
    hasCreditCardOffer := kwIn (lc (r.specialFeatures.getD "[]")) "credit card" }

/-- `_store_fd_rates`: one new row per extracted tier, appended to the
table; nothing is updated or deleted. -/
def storeFdRates (db : List FDRow) (rates : List RateData) : List FDRow :=
  db ++ rates.map toFDRow

/-- The filters of `get_best_fd_rates`; a `none` or falsy value (0, empty
list) leaves the corresponding filter off, matching Python truthiness. -/
structure FDQuery where
  tenureDays : Option Nat
  minRate : Option ℚ
  bankTypes : Option (List String)
  withCreditCard : Bool

def matchesQuery (q : FDQuery) (r : FDRow) : Bool :=
  (match q.tenureDays with
    | some t => if t = 0 then true else decide (r.tenureMin ≤ t) && decide (t ≤ r.tenureMax)
    | none => true)
  && (match q.minRate with
    | some m => if m = 0 then true else decide (m ≤ r.rateGeneral)
    | none => true)
  && (match q.bankTypes with
    | some bs => if bs = [] then true else decide (r.bankType ∈ bs)
    | none => true)
  && (if q.withCreditCard then r.hasCreditCardOffer else true)

/-- The `ORDER BY interest_rate_general DESC` comparison. -/
def fdRateLe (a b : FDRow) : Bool := decide (b.rateGeneral ≤ a.rateGeneral)

/-- `get_best_fd_rates`: filter, sort by general rate descending, cap at
20 rows.  No recency filter appears anywhere. -/
def getBestFdRates (db : List FDRow) (q : FDQuery) : List FDRow :=
  ((db.filter (matchesQuery q)).mergeSort fdRateLe).take 20

theorem fdRateLe_trans (a b c : FDRow) :
    fdRateLe a b → fdRateLe b c → fdRateLe a c := by
  simp only [fdRateLe, decide_eq_true_eq]
  exact fun h1 h2 => le_trans h2 h1

theorem fdRateLe_total (a b : FDRow) : fdRateLe a b || fdRateLe b a := by
  simp only [fdRateLe, Bool.or_eq_true, decide_eq_true_eq]
  exact le_total _ _

/-- C5: FD-rate persistence is append-only (a second scrape of the same
bank/tenure adds a second row, old rows survive untouched), and the
best-rate query's head row dominates every stored row matching the
filters, across the entire history. -/
theorem fd_append_only_best_rate (db : List FDRow) (r1 r2 : RateData) (q : FDQuery) :
    (storeFdRates (storeFdRates db [r1]) [r2] = db ++ [toFDRow r1, toFDRow r2])
    ∧ ((storeFdRates (storeFdRates db [r1]) [r2]).length = db.length + 2)
    ∧ (∀ row ∈ db, row ∈ storeFdRates (storeFdRates db [r1]) [r2])
    ∧ (∀ row ∈ db, matchesQuery q row = true →
      ∃ top, (getBestFdRates db q).head? = some top
        ∧ row.rateGeneral ≤ top.rateGeneral
        ∧ matchesQuery q top = true ∧ top ∈ db) := by
  refine ⟨?_, ?_, ?_, ?_⟩
  · simp [storeFdRates]
  · simp [storeFdRates]
  · intro row hrow
    simp only [storeFdRates, List.append_assoc, List.mem_append]
    exact Or.inl hrow
  · intro row hrow hmatch
    have hmem : row ∈ db.filter (matchesQuery q) := List.mem_filter.2 ⟨hrow, hmatch⟩
    have hperm := List.mergeSort_perm (db.filter (matchesQuery q)) fdRateLe
    have hmem2 : row ∈ (db.filter (matchesQuery q)).mergeSort fdRateLe :=
      hperm.mem_iff.2 hmem
    have hsorted := List.sorted_mergeSort (fun a b c => fdRateLe_trans a b c)
      fdRateLe_total (db.filter (matchesQuery q))
    rcases hs : (db.filter (matchesQuery q)).mergeSort fdRateLe with - | ⟨top, rest⟩
    · rw [hs] at hmem2
      exact absurd hmem2 (List.not_mem_nil row)
    · refine ⟨top, ?_, ?_, ?_, ?_⟩
      · rw [getBestFdRates, hs]
        rfl
      · rw [hs] at hmem2 hsorted
        rcases List.mem_cons.1 hmem2 with h | h
        · rw [h]
        · have := (List.pairwise_cons.1 hsorted).1 row h
          simpa [fdRateLe] using this
      · have : top ∈ db.filter (matchesQuery q) := by
          rw [← hperm.mem_iff, hs]
          exact List.mem_cons_self top rest
        exact (List.mem_filter.1 this).2
      · have : top ∈ db.filter (matchesQuery q) := by
          rw [← hperm.mem_iff, hs]
          exact List.mem_cons_self top rest
        exact (List.mem_filter.1 this).1

/-- Two successive tiers for the witness: same bank and tenure, different
rates, as two successive scrapes would extract them. -/
def rateTierA : RateData :=
  ⟨some "Ujjivan SFB", some "small_finance", some 365, some 365, some "1 year",
   some 7, none, none, none, some "https://bank.example/fd"⟩

def rateTierB : RateData :=
  ⟨some "Ujjivan SFB", some "small_finance", some 365, some 365, some "1 year",
   some 8, none, none, none, some "https://bank.example/fd"⟩

/-- C5 witness: the two scrapes produce two distinct stored rows and the
best-rate query's head dominates a matching stored row. -/
theorem fd_append_only_best_rate_witness :
    (storeFdRates (storeFdRates [] [rateTierA]) [rateTierB]
      = [] ++ [toFDRow rateTierA, toFDRow rateTierB])
    ∧ toFDRow rateTierA ≠ toFDRow rateTierB
    ∧ ∃ top,
        (getBestFdRates [toFDRow rateTierA, toFDRow rateTierB]
          ⟨none, none, none, false⟩).head? = some top
        ∧ (toFDRow rateTierA).rateGeneral ≤ top.rateGeneral
        ∧ matchesQuery ⟨none, none, none, false⟩ top = true
        ∧ top ∈ [toFDRow rateTierA, toFDRow rateTierB] := by
  refine ⟨(fd_append_only_best_rate [] rateTierA rateTierB ⟨none, none, none, false⟩).1,
    ?_, ?_⟩
  · decide
  · exact (fd_append_only_best_rate [toFDRow rateTierA, toFDRow rateTierB]
      rateTierA rateTierB ⟨none, none, none, false⟩).2.2.2
      (toFDRow rateTierA) (by decide) (by decide)

end FD

/-- A stored `GoldSilverPrice` observation (fields the cleanup job reads). -/
structure GoldPriceRow where
  metalType : String
  recordedAt : ℤ
deriving DecidableEq

/-- A stored `MarketNews` row (fields the cleanup job reads). -/
structure NewsRow where
  url : String
  scrapedAt : ℤ
deriving DecidableEq

/-- A stored `MacroIndicator` observation. -/
structure MacroRow where
  name : String
  value : ℚ
  previousValue : Option ℚ
  changePercent : Option ℚ
  unit : String
  source : String
  recordedAt : ℤ
deriving DecidableEq

namespace Cleanup

/-- `cleanup_old_data`: deletes gold/silver prices and news older than the
`days` window (default 90) and macro indicators older than 365 days;
`DELETE WHERE t < cutoff` keeps exactly the rows with `¬(t < cutoff)`. -/
def cleanupOldData (golds : List GoldPriceRow) (news : List NewsRow)
    (macros : List MacroRow) (now days : ℤ) :
    List GoldPriceRow × List NewsRow × List MacroRow :=
  (golds.filter (fun g => ¬(g.recordedAt < now - days * 86400)),
   news.filter (fun n => ¬(n.scrapedAt < now - days * 86400)),
   macros.filter (fun m => ¬(m.recordedAt < now - 365 * 86400)))

/-- C8: with the default 90-day window a gold price recorded 91 days ago
is deleted and one recorded 89 days ago is retained; a macro indicator
recorded 200 days ago is retained and one recorded 400 days ago is
deleted (365-day window). -/
theorem cleanup_age_boundary (golds : List GoldPriceRow) (news : List NewsRow)
    (macros : List MacroRow) (now : ℤ) (g91 g89 : GoldPriceRow)
    (m200 m400 : MacroRow) :
    (g91.recordedAt = now - 91 * 86400 →
      g91 ∉ (cleanupOldData golds news macros now 90).1)
    ∧ (g89 ∈ golds → g89.recordedAt = now - 89 * 86400 →
      g89 ∈ (cleanupOldData golds news macros now 90).1)
    ∧ (m200 ∈ macros → m200.recordedAt = now - 200 * 86400 →
      m200 ∈ (cleanupOldData golds news macros now 90).2.2)
    ∧ (m400.recordedAt = now - 400 * 86400 →
      m400 ∉ (cleanupOldData golds news macros now 90).2.2) := by
  refine ⟨?_, ?_, ?_, ?_⟩
  · intro h hmem
    simp [cleanupOldData, List.mem_filter, not_lt] at hmem
    omega
  · intro hmem h
    simp [cleanupOldData, List.mem_filter, not_lt]
    refine ⟨hmem, ?_⟩
    omega
  · intro hmem h
    simp [cleanupOldData, List.mem_filter, not_lt]
    refine ⟨hmem, ?_⟩
    omega
  · intro h hmem
    simp [cleanupOldData, List.mem_filter, not_lt] at hmem
    omega

/-- C8 witness: concrete rows at 91/89/200/400 days before a concrete
`now`, run through the cleanup job. -/
theorem cleanup_age_boundary_witness :
    ((⟨"gold", 40000000 - 91 * 86400⟩ : GoldPriceRow) ∉
      (cleanupOldData
        [⟨"gold", 40000000 - 91 * 86400⟩, ⟨"gold", 40000000 - 89 * 86400⟩] []
        [⟨"repo_rate", 6, none, none, "percent", "RBI", 40000000 - 200 * 86400⟩,
         ⟨"repo_rate", 7, none, none, "percent", "RBI", 40000000 - 400 * 86400⟩]
        40000000 90).1)
    ∧ ((⟨"gold", 40000000 - 89 * 86400⟩ : GoldPriceRow) ∈
      (cleanupOldData
        [⟨"gold", 40000000 - 91 * 86400⟩, ⟨"gold", 40000000 - 89 * 86400⟩] []
        [⟨"repo_rate", 6, none, none, "percent", "RBI", 40000000 - 200 * 86400⟩,
         ⟨"repo_rate", 7, none, none, "percent", "RBI", 40000000 - 400 * 86400⟩]
        40000000 90).1)
    ∧ ((⟨"repo_rate", 6, none, none, "percent", "RBI", 40000000 - 200 * 86400⟩ : MacroRow) ∈
      (cleanupOldData
        [⟨"gold", 40000000 - 91 * 86400⟩, ⟨"gold", 40000000 - 89 * 86400⟩] []
        [⟨"repo_rate", 6, none, none, "percent", "RBI", 40000000 - 200 * 86400⟩,
         ⟨"repo_rate", 7, none, none, "percent", "RBI", 40000000 - 400 * 86400⟩]
        40000000 90).2.2)
    ∧ ((⟨"repo_rate", 7, none, none, "percent", "RBI", 40000000 - 400 * 86400⟩ : MacroRow) ∉
      (cleanupOldData
        [⟨"gold", 40000000 - 91 * 86400⟩, ⟨"gold", 40000000 - 89 * 86400⟩] []
        [⟨"repo_rate", 6, none, none, "percent", "RBI", 40000000 - 200 * 86400⟩,
         ⟨"repo_rate", 7, none, none, "percent", "RBI", 40000000 - 400 * 86400⟩]
        40000000 90).2.2) := by
  have h := cleanup_age_boundary
    [⟨"gold", 40000000 - 91 * 86400⟩, ⟨"gold", 40000000 - 89 * 86400⟩] []
    [⟨"repo_rate", 6, none, none, "percent", "RBI", 40000000 - 200 * 86400⟩,
     ⟨"repo_rate", 7, none, none, "percent", "RBI", 40000000 - 400 * 86400⟩]
    40000000
    ⟨"gold", 40000000 - 91 * 86400⟩ ⟨"gold", 40000000 - 89 * 86400⟩
    ⟨"repo_rate", 6, none, none, "percent", "RBI", 40000000 - 200 * 86400⟩
    ⟨"repo_rate", 7, none, none, "percent", "RBI", 40000000 - 400 * 86400⟩
  exact ⟨h.1 rfl, h.2.1 (by decide) rfl, h.2.2.1 (by decide) rfl, h.2.2.2 rfl⟩

end Cleanup

namespace Macro

/-- `MacroDataService._store_indicator`: looks up the most recent stored
row of the same name, computes the change percentage when a non-zero
previous value exists, and appends one new row. -/
def storeIndicator (db : List MacroRow) (name : String) (value : ℚ)
    (unit source : String) (now : ℤ) : List MacroRow :=
  db ++ [{ name := name
           value := value
           previousValue := ((db.filter (fun r => r.name = name)).getLast?).map (·.value)
           changePercent :=
             match ((db.filter (fun r => r.name = name)).getLast?).map (·.value) with
             | some p => if p ≠ 0 then some ((value - p) / p * 100) else none
             | none => none
           unit := unit
           source := source
           recordedAt := now }]

/-- `MacroDataService.admin_update_indicator`: the unit argument is the
literal "percent" for every indicator name. -/
def adminUpdateIndicator (db : List MacroRow) (name : String) (value : ℚ)
    (source : String) (now : ℤ) : List MacroRow :=
  storeIndicator db name value "percent" source now

/-- The `refresh_all_indicators` store call for USD/INR, which uses unit
"INR". -/
def refreshStoreUsdInr (db : List MacroRow) (rate : ℚ) (now : ℤ) : List MacroRow :=
  storeIndicator db "usd_inr" rate "INR" "ExchangeRate-API" now

/-- C10: an admin override of usd_inr stores the new observation with unit
"percent", although the automated refresh path stores usd_inr with unit
"INR". -/
theorem admin_update_unit_percent (db : List MacroRow) (value rate : ℚ)
    (source : String) (now : ℤ) :
    ((adminUpdateIndicator db "usd_inr" value source now).getLast?).map (fun r => r.unit)
      = some "percent"
    ∧ ((refreshStoreUsdInr db rate now).getLast?).map (fun r => r.unit) = some "INR" := by
  constructor
  · rw [adminUpdateIndicator, storeIndicator, List.getLast?_concat]
    rfl
  · rw [refreshStoreUsdInr, storeIndicator, List.getLast?_concat]
    rfl

end Macro

namespace Auth

/-- A JSON claim value as it sits in the JWT payload: the router writes
the integer user id into `sub`, while the JWT spec (and python-jose's
claim validation) expects a string there. -/
inductive JoseClaim where
  | int (n : Nat)
  | str (s : String)
deriving DecidableEq

def claimCode : JoseClaim → Nat
  | .int n => 2 * n
  | .str s => 2 * (codes s).sum + 1

/-- The HMAC-SHA256 signature over the payload, modelled as a pairing of
secret, sub and exp; `joseDecode` only ever compares it for equality. -/
def signToken (secret : Nat) (sub : JoseClaim) (exp : Nat) : Nat :=
  Nat.pair secret (Nat.pair (claimCode sub) exp)

structure JwtToken where
  sub : JoseClaim
  exp : Nat
  sig : Nat
deriving DecidableEq

/-- `ACCESS_TOKEN_EXPIRE_MINUTES` default from the configuration. -/
def accessTokenExpireMinutes : Nat := 60 * 24 * 7

/-- `create_access_token(data={"sub": user.id})`: the sub claim carries the
integer user id, and the expiry is now plus the configured lifetime. -/
def createAccessToken (secret userId now : Nat) : JwtToken :=
  { sub := .int userId
    exp := now + accessTokenExpireMinutes * 60
    sig := signToken secret (.int userId) (now + accessTokenExpireMinutes * 60) }

/-- python-jose `jwt.decode`: verify the signature, reject expired tokens,
then validate registered claims — a `sub` claim that is not a string
raises `JWTClaimsError` (a `JWTError`), so only string subs are ever
returned. -/
def joseDecode (secret : Nat) (t : JwtToken) (now : Nat) : Option String :=
  if t.sig ≠ signToken secret t.sub t.exp then none
  else if t.exp ≤ now then none
  else match t.sub with
    | .str s => some s
    | .int _ => none

/-- A `users` table row. -/
structure UserRow where
  id : Nat
  email : String
  hashedPassword : String
  fullName : String
  risk : String
  horizonYears : Nat
  monthlyCapacity : Option ℚ
  isActive : Bool
deriving DecidableEq

structure HttpError where
  status : Nat
  detail : String
deriving DecidableEq

/-- The single 401 used for every token-validation failure. -/
def credentialsError : HttpError := ⟨401, "Could not validate credentials"⟩

/-- The single 401 used for both unknown email and wrong password. -/
def incorrectLoginError : HttpError := ⟨401, "Incorrect email or password"⟩

/-- The `UserResponse` fields returned by `/auth/me` and register. -/
structure Profile where
  id : Nat
  email : String
  fullName : String
  risk : String
  horizonYears : Nat
  monthlyCapacity : Option ℚ
deriving DecidableEq

def profileOf (u : UserRow) : Profile :=
  ⟨u.id, u.email, u.fullName, u.risk, u.horizonYears, u.monthlyCapacity⟩

/-- `get_current_user`: decode the bearer token (any `JWTError` becomes
the 401 credentials error), coerce the sub claim to an integer id (an
uncoercible sub would escape as an uncaught validation error), load the
user and reject unknown or inactive accounts. -/
def getCurrentUser (db : List UserRow) (secret : Nat) (t : JwtToken) (now : Nat) :
    Except HttpError UserRow :=
  match joseDecode secret t now with
  | none => .error credentialsError
  | some s =>
    match s.toNat? with
    | some n =>
      match db.find? (fun u => u.id = n) with
      | none => .error credentialsError
      | some u => if u.isActive then .ok u else .error ⟨400, "Inactive user"⟩
    | none => .error ⟨500, "Internal Server Error"⟩

/-- `GET /auth/me`. -/
def getMe (db : List UserRow) (secret : Nat) (t : JwtToken) (now : Nat) :
    Except HttpError Profile :=
  (getCurrentUser db secret t now).map profileOf

structure RegisterRequest where
  email : String
  password : String
  fullName : String
  risk : String
  horizonYears : Nat
  monthlyCapacity : Option ℚ

/-- The autoincrement primary key for the inserted row. -/
def freshUserId (db : List UserRow) : Nat := (db.map (·.id)).foldr max 0 + 1

/-- `POST /auth/register`: reject duplicate emails, hash the password,
insert the user (active by default) and return a token for the new id
plus the profile. -/
def register (hash : String → String) (db : List UserRow) (req : RegisterRequest)
    (secret now : Nat) : Except HttpError (JwtToken × Profile × List UserRow) :=
  if db.any (fun u => u.email = req.email) then
    .error ⟨400, "Email already registered"⟩
  else
    .ok (createAccessToken secret (freshUserId db) now,
      profileOf ⟨freshUserId db, req.email, hash req.password, req.fullName, req.risk,
        req.horizonYears, req.monthlyCapacity, true⟩,
      db ++ [⟨freshUserId db, req.email, hash req.password, req.fullName, req.risk,
        req.horizonYears, req.monthlyCapacity, true⟩])

/-- `POST /auth/login`: a single generic 401 covers both an unknown email
and a failed bcrypt verification. -/
def login (verify : String → String → Bool) (db : List UserRow)
    (username password : String) (secret now : Nat) :
    Except HttpError (JwtToken × Profile) :=
  match db.find? (fun u => u.email = username) with
  | none => .error incorrectLoginError
  | some u =>
    if verify password u.hashedPassword then
      if u.isActive then .ok (createAccessToken secret u.id now, profileOf u)
      else .error ⟨400, "Inactive user"⟩
    else .error incorrectLoginError

theorem joseDecode_createAccessToken (secret uid now now2 : Nat) :
    joseDecode secret (createAccessToken secret uid now) now2 = none := by
  unfold joseDecode createAccessToken
  simp

/-- C1 (code bug): after any successful registration, the profile endpoint
rejects the very token register returned — for every later time, including
immediately — because the sub claim is the integer user id and python-jose
refuses non-string sub claims. -/
theorem register_me_unauthorized (hash : String → String) (db : List UserRow)
    (req : RegisterRequest) (secret now now2 : Nat) (tok : JwtToken)
    (prof : Profile) (db2 : List UserRow)
    (h : register hash db req secret now = .ok (tok, prof, db2)) :
    getMe db2 secret tok now2 = .error credentialsError := by
  unfold register at h
  by_cases hdup : db.any (fun u => u.email = req.email)
  · rw [if_pos hdup] at h
    exact absurd h (by simp)
  · rw [if_neg hdup] at h
    simp only [Except.ok.injEq, Prod.mk.injEq] at h
    obtain ⟨h1, -, -⟩ := h
    rw [← h1]
    unfold getMe getCurrentUser
    rw [joseDecode_createAccessToken]
    rfl

/-- C1 witness: a concrete registration whose fresh token the profile
endpoint immediately rejects with the 401 credentials error. -/
theorem register_me_unauthorized_witness :
    getMe [⟨1, "a@b.com", "h:password1", "Alice", "moderate", 5, none, true⟩] 42
      (createAccessToken 42 1 1000) 1001 = .error credentialsError :=
  register_me_unauthorized (fun s => "h:" ++ s) []
    ⟨"a@b.com", "password1", "Alice", "moderate", 5, none⟩ 42 1000 1001
    (createAccessToken 42 1 1000)
    (profileOf ⟨1, "a@b.com", "h:password1", "Alice", "moderate", 5, none, true⟩)
    [⟨1, "a@b.com", "h:password1", "Alice", "moderate", 5, none, true⟩]
    rfl

/-- C9: an unknown email and a known email with a failed password check
produce the identical 401 response with the same generic message. -/
theorem login_no_enumeration (verify : String → String → Bool) (db : List UserRow)
    (username password : String) (secret now : Nat) :
    (db.find? (fun u => u.email = username) = none →
      login verify db username password secret now = .error incorrectLoginError)
    ∧ (∀ u, db.find? (fun u2 => u2.email = username) = some u →
      verify password u.hashedPassword = false →
      login verify db username password secret now = .error incorrectLoginError) := by
  constructor
  · intro h
    unfold login
    rw [h]
  · intro u hu hv
    unfold login
    rw [hu]
    simp [hv]

/-- C9 witness: one stored user; a login with an unknown email and one
with the right email but wrong password produce the same 401. -/
theorem login_no_enumeration_witness :
    login (fun p h => h == "h:" ++ p)
      [⟨1, "a@b.com", "h:pw", "Alice", "moderate", 5, none, true⟩]
      "unknown@b.com" "pw" 42 1000 = .error incorrectLoginError
    ∧ login (fun p h => h == "h:" ++ p)
      [⟨1, "a@b.com", "h:pw", "Alice", "moderate", 5, none, true⟩]
      "a@b.com" "wrong" 42 1000 = .error incorrectLoginError := by
  have h := login_no_enumeration (fun p h => h == "h:" ++ p)
    [⟨1, "a@b.com", "h:pw", "Alice", "moderate", 5, none, true⟩]
  refine ⟨h "unknown@b.com" "pw" 42 1000 |>.1 (by decide), ?_⟩
  exact (h "a@b.com" "wrong" 42 1000).2
    ⟨1, "a@b.com", "h:pw", "Alice", "moderate", 5, none, true⟩ (by decide) (by decide)

end Auth

namespace Recommend

/-- One structured suggestion of the AI response. -/
structure SuggestionItem where
  assetType : String
  instrumentName : String
  amount : ℚ
  percentage : ℚ
  reason : String
deriving DecidableEq

/-- The parsed LLM recommendation, an external input to both endpoints. -/
structure AiRecommendation where
  suggestions : List SuggestionItem
  summary : String
  riskNote : String
  taxNote : Option String
deriving DecidableEq

/-- A persisted `InvestmentPlan` row. -/
structure PlanRow where
  userId : Nat
  investmentAmount : ℚ
  riskLevelUsed : String
  recommendations : List SuggestionItem
  reasoning : String
  createdAt : Nat
  expiresAt : Nat
deriving DecidableEq

structure InvestInput where
  amount : ℚ
  riskOverride : Option String
  avoidLockIns : Bool
  preferTaxSaving : Bool
  includeFds : Bool
  includeGold : Bool

structure GuestInput where
  amount : ℚ
  riskProfile : String
  avoidLockIns : Bool
  preferTaxSaving : Bool
  includeFds : Bool
  includeGold : Bool

structure RecommendationResponse where
  planId : Nat
  suggestions : List SuggestionItem
  summary : String
  riskNote : String
  taxNote : Option String
  validUntil : Nat
deriving DecidableEq

structure GuestRecommendationResponse where
  suggestions : List SuggestionItem
  summary : String
  riskNote : String
  taxNote : Option String
  disclaimer : String
  generatedAt : Nat
deriving DecidableEq

/-- `request.risk_override or user.risk_tolerance.value` with Python
truthiness: a missing or empty override falls back to the stored risk. -/
def riskUsed (override : Option String) (userRisk : String) : String :=
  match override with
  | some r => if r = "" then userRisk else r
  | none => userRisk

/-- `POST /recommend/invest`: load the user (404 when unknown), read the
memory context (one memory-service call), call the AI gateway, persist
exactly one `InvestmentPlan` row expiring 7 days after creation, and
return the structured response.  The result carries the response, the
plan table after the commit, and how many memory-service calls ran. -/
def getInvestmentRecommendation (users : List Auth.UserRow) (plans : List PlanRow)
    (userId : Nat) (req : InvestInput) (ai : AiRecommendation) (now : Nat) :
    Except Auth.HttpError (RecommendationResponse × List PlanRow × Nat) :=
  match users.find? (fun u => u.id = userId) with
  | none => .error ⟨404, "User not found"⟩
  | some user =>
    .ok (⟨plans.length + 1, ai.suggestions, ai.summary, ai.riskNote, ai.taxNote,
          now + 7 * 86400⟩,
      plans ++ [⟨userId, req.amount, riskUsed req.riskOverride user.risk,
        ai.suggestions, ai.summary, now, now + 7 * 86400⟩],
      1)

/-- `POST /recommend/invest/guest`: same AI flow without auth, portfolio
or memory; nothing is persisted and the memory service is never called.
The plan table passes through untouched and the memory-call count is 0. -/
def getGuestRecommendation (plans : List PlanRow) (req : GuestInput)
    (ai : AiRecommendation) (now : Nat) :
    GuestRecommendationResponse × List PlanRow × Nat :=
  (⟨ai.suggestions, ai.summary, ai.riskNote, ai.taxNote,
    "This is educational information based on current market data. Not personalized investment advice. Sign in to get portfolio-aware recommendations.",
    now⟩,
   plans, 0)

/-- C3: a guest recommendation leaves the plan table unchanged and makes
no memory-service call; every successful authenticated recommendation
appends exactly one plan row whose expiry is its creation time plus 7
days (604800 seconds), after exactly one memory-service call. -/
theorem recommendation_isolation (users : List Auth.UserRow) (plans : List PlanRow)
    (userId : Nat) (reqA : InvestInput) (reqG : GuestInput)
    (ai : AiRecommendation) (now : Nat) :
    ((getGuestRecommendation plans reqG ai now).2.1 = plans
      ∧ (getGuestRecommendation plans reqG ai now).2.2 = 0)
    ∧ (∀ resp plans2 mem,
      getInvestmentRecommendation users plans userId reqA ai now
        = .ok (resp, plans2, mem) →
      ∃ plan, plans2 = plans ++ [plan] ∧ plan.createdAt = now
        ∧ plan.expiresAt = now + 7 * 86400 ∧ mem = 1) := by
  refine ⟨⟨rfl, rfl⟩, ?_⟩
  intro resp plans2 mem h
  unfold getInvestmentRecommendation at h
  rcases hfind : users.find? (fun u => u.id = userId) with - | u
  · rw [hfind] at h
    exact absurd h (by simp)
  · rw [hfind] at h
    simp only [Except.ok.injEq, Prod.mk.injEq] at h
    obtain ⟨-, h2, h3⟩ := h
    exact ⟨_, h2.symm, rfl, rfl, h3.symm⟩

/-- C3 witness: one stored user, an empty plan table, a concrete request
and AI response; the authenticated endpoint commits exactly the one
expected plan row and the guest endpoint commits nothing. -/
theorem recommendation_isolation_witness :
    ((getGuestRecommendation [] ⟨10000, "moderate", false, false, true, true⟩
        ⟨[], "diversify", "moderate risk", none⟩ 1000).2.1 = ([] : List PlanRow))
    ∧ ((getGuestRecommendation [] ⟨10000, "moderate", false, false, true, true⟩
        ⟨[], "diversify", "moderate risk", none⟩ 1000).2.2 = 0)
    ∧ getInvestmentRecommendation
        [⟨1, "a@b.com", "h", "Alice", "moderate", 5, none, true⟩] [] 1
        ⟨10000, none, false, false, true, true⟩
        ⟨[], "diversify", "moderate risk", none⟩ 1000
      = .ok (⟨1, [], "diversify", "moderate risk", none, 1000 + 7 * 86400⟩,
          [⟨1, 10000, "moderate", [], "diversify", 1000, 1000 + 7 * 86400⟩], 1) := by
  have h := recommendation_isolation
    [⟨1, "a@b.com", "h", "Alice", "moderate", 5, none, true⟩] [] 1
    ⟨10000, none, false, false, true, true⟩ ⟨10000, "moderate", false, false, true, true⟩
    ⟨[], "diversify", "moderate risk", none⟩ 1000
  exact ⟨h.1.1, h.1.2, rfl⟩

end Recommend

end ZrataX
